import Mathlib

/-!
Shallow embedding of the item-lending server in
`src/cpp_project_myCopy` (Item.cpp, InventoryManager.cpp, server.cpp).

C++ exceptions are modelled as `Except String` carrying the exact
`runtime_error` message, because the connection handler in server.cpp
dispatches on substrings of `e.what()`.  Store operations return the
post-call store alongside the result: a thrown exception unwinds without
undoing mutations, so each error branch pairs the error with the state
at the throw point.
-/

namespace Lending

/-- Embeds `class Item` (Item.h): id, name, borrowed flag, borrower name. -/
structure Item where
  id : Int
  name : String
  isBorrowed : Bool
  borrowedBy : String
deriving DecidableEq, Repr

/-- Embeds the constructor `Item::Item(int, const string&)` (Item.cpp:7):
starts free with an empty borrower. -/
def Item.mkItem (id : Int) (name : String) : Item :=
  ⟨id, name, false, ""⟩

/-- Embeds `Item::isAvailable` (Item.cpp:22). -/
def Item.isAvailable (it : Item) : Bool :=
  !it.isBorrowed

/-- Embeds `Item::borrow` (Item.cpp:34-44): both throws precede the two
field assignments, so an error leaves the item unchanged. -/
def Item.borrow (it : Item) (username : String) : Except String Item :=
  if username = "" then
    .error "username filld can be empty"
  else if it.isBorrowed then
    .error "this item is already borrowed"
  else
    .ok { it with isBorrowed := true, borrowedBy := username }

/-- Embeds `Item::returnBack` (Item.cpp:48-63): all three throws precede
the two field assignments. -/
def Item.returnBack (it : Item) (username : String) : Except String Item :=
  if username = "" then
    .error "username filld can be empty!"
  else if !it.isBorrowed then
    .error "this item is't borrowed!"
  else if it.borrowedBy ≠ username then
    .error "username have to be the same as the one who borrowed"
  else
    .ok { it with isBorrowed := false, borrowedBy := "" }

/-- Embeds `Item::toString` (Item.cpp:67-78). -/
def Item.render (it : Item) : String :=
  toString it.id ++ " " ++ it.name ++ " " ++
    (if it.isBorrowed then "BORROWED by= " ++ it.borrowedBy else "FREE")

/-- Embeds `class InventoryManager` (InventoryManager.h): the vector of
items.  The mutex and condition variable are lock-step plumbing; the
condition broadcast is surfaced as an explicit flag on `returnItem`. -/
structure InventoryManager where
  items : List Item
deriving DecidableEq, Repr

/-- Embeds the seed catalog built by `InventoryManager::InventoryManager`
(InventoryManager.cpp:6-22). -/
def InventoryManager.init : InventoryManager :=
  ⟨[Item.mkItem 1 "Camera", Item.mkItem 2 "Tripod", Item.mkItem 3 "Laptop",
    Item.mkItem 4 "Projector", Item.mkItem 5 "Microphone",
    Item.mkItem 6 "Speaker", Item.mkItem 7 "HDMI_Cable",
    Item.mkItem 8 "Ethernet_Cable", Item.mkItem 9 "Keyboard",
    Item.mkItem 10 "Mouse", Item.mkItem 11 "Monitor",
    Item.mkItem 12 "USB_Hub", Item.mkItem 13 "Power_Bank",
    Item.mkItem 14 "Router", Item.mkItem 15 "VR_Headset"]⟩

/-- Embeds the linear scan of `InventoryManager::findItemById`
(InventoryManager.cpp:24-31): first item whose id matches, `none` for the
`throw runtime_error("Item not found")` case. -/
def findItem? (items : List Item) (itemId : Int) : Option Item :=
  items.find? (fun it => it.id == itemId)

/-- `findItemById` returns a reference into the vector; a write through it
replaces the first element with that id.  This models that write. -/
def setFirstById : List Item → Int → Item → List Item
  | [], _, _ => []
  | it :: rest, itemId, newIt =>
    if it.id == itemId then newIt :: rest
    else it :: setFirstById rest itemId newIt

/-- Embeds `InventoryManager::listItems` (InventoryManager.cpp:33-44):
header line, then one rendered line per item. -/
def InventoryManager.listItems (inv : InventoryManager) : String :=
  "OK LIST " ++ toString inv.items.length ++ "\n" ++
    String.join (inv.items.map (fun it => it.render ++ "\n"))

/-- Embeds `InventoryManager::borrowItem` (InventoryManager.cpp:46-54).
Each error branch pairs the thrown message with the store at the throw
point (no mutation precedes any throw in the C++ source). -/
def InventoryManager.borrowItem (inv : InventoryManager) (itemId : Int)
    (username : String) : Except String Unit × InventoryManager :=
  match findItem? inv.items itemId with
  | none => (.error "Item not found", inv)
  | some item =>
    if !item.isAvailable then
      (.error ("already borrowed by " ++ item.borrowedBy), inv)
    else
      match item.borrow username with
      | .error e => (.error e, inv)
      | .ok item2 => (.ok (), ⟨setFirstById inv.items itemId item2⟩)

/-- Embeds `InventoryManager::returnItem` (InventoryManager.cpp:56-63).
The third component records whether `cv.notify_all()` ran; in the source
it is reached only after `returnBack` returns normally. -/
def InventoryManager.returnItem (inv : InventoryManager) (itemId : Int)
    (username : String) : Except String Unit × InventoryManager × Bool :=
  match findItem? inv.items itemId with
  | none => (.error "Item not found", inv, false)
  | some item =>
    match item.returnBack username with
    | .error e => (.error e, inv, false)
    | .ok item2 => (.ok (), ⟨setFirstById inv.items itemId item2⟩, true)

/-- Outcome of `InventoryManager::waitUntilAvailable`: an exception, an
immediate return (the wait predicate already holds on entry), or entering
the blocking `cv.wait`. -/
inductive WaitOutcome where
  | err (msg : String)
  | ready
  | blocks
deriving DecidableEq, Repr

/-- Embeds `InventoryManager::waitUntilAvailable`
(InventoryManager.cpp:65-76): not-found throw, then the self-deadlock
throw, both before `cv.wait`; the wait itself checks the availability
predicate before ever blocking. -/
def InventoryManager.waitUntilAvailable (inv : InventoryManager)
    (itemId : Int) (username : String) : WaitOutcome :=
  match findItem? inv.items itemId with
  | none => .err "Item not found"
  | some item =>
    if !item.isAvailable && item.borrowedBy == username then
      .err "Deadlock: user is waiting for their own item"
    else if item.isAvailable then .ready
    else .blocks

/-- The whitespace characters `istringstream >> token` skips. -/
def isSpaceChar (c : Char) : Bool :=
  c = ' ' || c = '\t' || c = '\r' || c = '\n'

/-- Tokenizer core: accumulates the current token (reversed) and cuts it
at each whitespace run. -/
def splitChars : List Char → List Char → List String
  | [], acc => if acc.isEmpty then [] else [String.mk acc.reverse]
  | c :: rest, acc =>
    if isSpaceChar c then
      if acc.isEmpty then splitChars rest []
      else String.mk acc.reverse :: splitChars rest []
    else splitChars rest (c :: acc)

/-- Embeds `split` (server.cpp:54-62): `istringstream >> token`
tokenization — maximal runs of non-whitespace characters, never
producing an empty token. -/
def split (str : String) : List String :=
  splitChars str.toList []

/-- Whether `sub` occurs as a contiguous run inside the second list. -/
def hasInfix (sub : List Char) : List Char → Bool
  | [] => sub.isEmpty
  | c :: rest => sub.isPrefixOf (c :: rest) || hasInfix sub rest

/-- Embeds `contains` (server.cpp:64-66): substring test via
`string::find`. -/
def contains (str substring : String) : Bool :=
  hasInfix substring.toList str.toList

/-- Embeds `std::stoi` as used in server.cpp: skip leading whitespace,
optional sign, then a maximal run of decimal digits; `invalid_argument`
when no digit is consumed, `out_of_range` when the value exceeds `int`;
trailing non-digit characters are ignored. -/
def stoi (s : String) : Except String Int :=
  let cs := s.toList.dropWhile
    (fun c => c = ' ' ∨ c = '\t' ∨ c = '\n' ∨ c = '\r')
  let signed : Int × List Char :=
    match cs with
    | '-' :: rest => (-1, rest)
    | '+' :: rest => (1, rest)
    | _ => (1, cs)
  let digits := signed.2.takeWhile Char.isDigit
  if digits.isEmpty then
    .error "stoi: invalid argument"
  else
    let v : Int :=
      signed.1 * ((digits.foldl (fun acc c => acc * 10 + (c.toNat - 48)) 0 : Nat) : Int)
    if v < -(2 ^ 31) ∨ 2 ^ 31 ≤ v then .error "stoi: out of range"
    else .ok v

/-- Result of processing one command line in `handelClient`
(server.cpp:72-240): the lines passed to `send_line`/`send`, the session
variables (`username`, `authentication`) after the iteration, the store
after the iteration, whether `cv.notify_all` ran, whether the thread is
parked inside `cv.wait`, and whether the loop ended (`QUIT`). -/
structure StepOut where
  responses : List String
  username : String
  authentication : Bool
  inv : InventoryManager
  notified : Bool
  blocked : Bool
  closed : Bool
deriving DecidableEq, Repr

/-- Embeds one iteration of the command loop of `handelClient`
(server.cpp:76-238): tokenize, dispatch on the verb in source order
(HELLO, the authentication gate, LIST, BORROW, RETURN, WAIT, QUIT,
unknown), mapping each caught exception message exactly as the C++
`catch` blocks do.  A `catch` chain with no matching branch sends
nothing and continues, as in the source. -/
def handleCommand (username : String) (authentication : Bool)
    (inv : InventoryManager) (commend : String) : StepOut :=
  let tokens := split commend
  match tokens with
  | [] => ⟨["ERR PROTOCOL command_invalid"], username, authentication, inv,
      false, false, false⟩
  | comm :: args =>
    if comm = "HELLO" then
      match args with
      | [] => ⟨["ERR PROTOCOL missing_username"], username, authentication,
          inv, false, false, false⟩
      | u2 :: _ =>
        -- server.cpp:93 assigns `username = tokens[1]` before the empty
        -- check at line 95 (unreachable: `>>` never yields an empty token).
        if u2 = "" then
          ⟨["ERR PROTOCOL missing_username"], u2, authentication, inv,
            false, false, false⟩
        else
          ⟨["OK HELLO"], u2, true, inv, false, false, false⟩
    else if !authentication then
      ⟨["ERR STATE not_authenticated"], username, authentication, inv,
        false, false, false⟩
    else if comm = "LIST" then
      ⟨[inv.listItems], username, authentication, inv, false, false, false⟩
    else if comm = "BORROW" then
      match args with
      | [] => ⟨["ERR PROTOCOL invalid_id"], username, authentication, inv,
          false, false, false⟩
      | idTok :: _ =>
        match stoi idTok with
        | .error _ => ⟨["ERR PROTOCOL invalid_id"], username,
            authentication, inv, false, false, false⟩
        | .ok itemId =>
          match inv.borrowItem itemId username with
          | (.ok _, inv2) =>
            ⟨["OK BORROWED" ++ toString itemId], username, authentication,
              inv2, false, false, false⟩
          | (.error e, inv2) =>
            if contains e "not found" then
              ⟨[" ERR NOT_FOUND item"], username, authentication, inv2,
                false, false, false⟩
            else if contains e "already borrowed" then
              ⟨[" ERR UNAVAILABLE borrowed_by= " ++ e.drop 20], username,
                authentication, inv2, false, false, false⟩
            else
              ⟨[], username, authentication, inv2, false, false, false⟩
    else if comm = "RETURN" then
      match args with
      | [] => ⟨["ERR PROTOCOL invalid_id"], username, authentication, inv,
          false, false, false⟩
      | idTok :: _ =>
        match stoi idTok with
        | .error _ => ⟨["ERR PROTOCOL invalid_id"], username,
            authentication, inv, false, false, false⟩
        | .ok itemId =>
          match inv.returnItem itemId username with
          | (.ok _, inv2, notified) =>
            ⟨["OK RETURNED" ++ toString itemId], username, authentication,
              inv2, notified, false, false⟩
          | (.error e, inv2, notified) =>
            if contains e "not found" then
              ⟨[" ERR NOT_FOUND item"], username, authentication, inv2,
                notified, false, false⟩
            else if contains e "not borrows" || contains e "was not borrowed by" then
              ⟨["ERR PERMISSION not_owner"], username, authentication, inv2,
                notified, false, false⟩
            else
              ⟨["ERR SERVER " ++ e], username, authentication, inv2,
                notified, false, false⟩
    else if comm = "WAIT" then
      match args with
      | [] => ⟨["ERR PROTOCOL invalid_id"], username, authentication, inv,
          false, false, false⟩
      | idTok :: _ =>
        match stoi idTok with
        | .error _ => ⟨["ERR PROTOCOL invalid_id"], username,
            authentication, inv, false, false, false⟩
        | .ok itemId =>
          match inv.waitUntilAvailable itemId username with
          | .ready =>
            ⟨["OK AVAILABLE " ++ toString itemId], username, authentication,
              inv, false, false, false⟩
          | .blocks =>
            ⟨[], username, authentication, inv, false, true, false⟩
          | .err e =>
            if contains e "not found" then
              ⟨["ERR NOT_FOUNT item"], username, authentication, inv,
                false, false, false⟩
            else if contains e "Deadlock" then
              ⟨["ERR DEADLOCK item"], username, authentication, inv,
                false, false, false⟩
            else
              ⟨[], username, authentication, inv, false, false, false⟩
    else if comm = "QUIT" then
      ⟨["OK BYE"], username, authentication, inv, false, false, true⟩
    else
      ⟨["ERR PROTOCOL invalid_command"], username, authentication, inv,
        false, false, false⟩

/-- Per-connection session state threaded through the command loop of
`handelClient`, with the transcript of everything sent back. -/
structure SessState where
  username : String
  authentication : Bool
  inv : InventoryManager
  transcript : List String
  blocked : Bool
  closed : Bool
deriving DecidableEq, Repr

/-- The session state at the top of `handelClient`'s loop
(server.cpp:73-74), over a given store. -/
def SessState.start (inv : InventoryManager) : SessState :=
  ⟨"", false, inv, [], false, false⟩

/-- Runs a sequence of command lines through `handleCommand`, stopping
when the loop broke (`QUIT`) or the thread is parked in `cv.wait` (no
other thread exists in this single-session model to wake it). -/
def runSession : SessState → List String → SessState
  | st, [] => st
  | st, line :: rest =>
    if st.closed || st.blocked then st
    else
      let out := handleCommand st.username st.authentication st.inv line
      runSession ⟨out.username, out.authentication, out.inv,
        st.transcript ++ out.responses, out.blocked, out.closed⟩ rest

/-- The documented Item invariant: the borrower name is non-empty exactly
when the item is currently lent. -/
def Item.wf (it : Item) : Prop :=
  it.borrowedBy ≠ "" ↔ it.isBorrowed = true

instance (it : Item) : Decidable it.wf := by
  unfold Item.wf
  infer_instance

/-- The store invariant: every item in the vector satisfies `Item.wf`. -/
def InventoryManager.wf (inv : InventoryManager) : Prop :=
  ∀ it ∈ inv.items, it.wf

instance (inv : InventoryManager) : Decidable inv.wf := by
  unfold InventoryManager.wf
  infer_instance

/-! ### Helper lemmas -/

theorem findItem?_id_eq {items : List Item} {itemId : Int} {it : Item}
    (h : findItem? items itemId = some it) : it.id = itemId := by
  unfold findItem? at h
  have h2 := List.find?_some h
  exact eq_of_beq h2

theorem findItem?_setFirstById {items : List Item} {itemId : Int}
    {it : Item} (h : findItem? items itemId = some it) (x : Item)
    (hx : x.id = itemId) :
    findItem? (setFirstById items itemId x) itemId = some x := by
  induction items with
  | nil => simp [findItem?] at h
  | cons a rest ih =>
    by_cases ha : (a.id == itemId) = true
    · unfold findItem?
      simp only [setFirstById, if_pos ha]
      exact List.find?_cons_of_pos _ (by simp [hx])
    · unfold findItem? at h ⊢
      rw [List.find?_cons_of_neg _ (by simpa using ha)] at h
      simp only [setFirstById, if_neg ha]
      rw [List.find?_cons_of_neg _ (by simpa using ha)]
      exact ih h

theorem mem_setFirstById {l : List Item} {itemId : Int} {x y : Item}
    (hy : y ∈ setFirstById l itemId x) : y ∈ l ∨ y = x := by
  induction l with
  | nil => simp [setFirstById] at hy
  | cons a rest ih =>
    by_cases ha : (a.id == itemId) = true
    · simp only [setFirstById, ha, if_true] at hy
      rcases List.mem_cons.mp hy with h | h
      · exact Or.inr h
      · exact Or.inl (List.mem_cons_of_mem a h)
    · simp only [setFirstById, ha, if_false] at hy
      rcases List.mem_cons.mp hy with h | h
      · exact Or.inl (h ▸ List.mem_cons_self a rest)
      · rcases ih h with h2 | h2
        · exact Or.inl (List.mem_cons_of_mem a h2)
        · exact Or.inr h2

/-- Characterization of a successful `borrowItem`. -/
theorem borrowItem_eq_of_free {inv : InventoryManager} {itemId : Int}
    {it : Item} {u : String} (hfind : findItem? inv.items itemId = some it)
    (hfree : it.isBorrowed = false) (hu : u ≠ "") :
    inv.borrowItem itemId u =
      (.ok (), ⟨setFirstById inv.items itemId
        { it with isBorrowed := true, borrowedBy := u }⟩) := by
  unfold InventoryManager.borrowItem
  rw [hfind]
  simp [Item.isAvailable, hfree, Item.borrow, hu]

/-- Characterization of a successful `returnItem`. -/
theorem returnItem_eq_of_owner {inv : InventoryManager} {itemId : Int}
    {it : Item} {u : String} (hfind : findItem? inv.items itemId = some it)
    (hb : it.isBorrowed = true) (hby : it.borrowedBy = u) (hu : u ≠ "") :
    inv.returnItem itemId u =
      (.ok (), ⟨setFirstById inv.items itemId
        { it with isBorrowed := false, borrowedBy := "" }⟩, true) := by
  unfold InventoryManager.returnItem
  rw [hfind]
  simp [Item.returnBack, hb, hby, hu]

/-! ### Claims -/

/-- C2: borrowing an item that is currently lent — to anyone, the caller
included — fails with the `already borrowed by <borrower>` error carrying
the current borrower's name, and leaves the store unchanged; in
particular a second borrow by the same user never succeeds. -/
theorem C2_second_borrow_rejected {inv : InventoryManager} {itemId : Int}
    {it : Item} (u : String) (_hu : u ≠ "")
    (hfind : findItem? inv.items itemId = some it)
    (hb : it.isBorrowed = true) :
    inv.borrowItem itemId u =
      (.error ("already borrowed by " ++ it.borrowedBy), inv) := by
  unfold InventoryManager.borrowItem
  rw [hfind]
  simp [Item.isAvailable, hb]

/-- Witness for C2: item 1 borrowed by alice, then borrowed again by
alice herself — rejected with her own name, store unchanged. -/
theorem C2_witness :
    (InventoryManager.init.borrowItem 1 "alice").2.borrowItem 1 "alice" =
      (.error "already borrowed by alice",
        (InventoryManager.init.borrowItem 1 "alice").2) :=
  @C2_second_borrow_rejected (InventoryManager.init.borrowItem 1 "alice").2 1
    ⟨1, "Camera", true, "alice"⟩ "alice" (by decide) rfl rfl

/-- C3: on a free catalog item, `borrow(id,u)` then `returnItem(id,u)`
both succeed, the item ends `FREE` with its borrower cleared, and a
subsequent `borrow(id,u2)` succeeds. -/
theorem C3_borrow_return_roundtrip {inv : InventoryManager} {itemId : Int}
    {it : Item} {u u2 : String}
    (hfind : findItem? inv.items itemId = some it)
    (hfree : it.isBorrowed = false) (hu : u ≠ "") (hu2 : u2 ≠ "") :
    (inv.borrowItem itemId u).1 = .ok () ∧
    ((inv.borrowItem itemId u).2.returnItem itemId u).1 = .ok () ∧
    (∃ it2, findItem? ((inv.borrowItem itemId u).2.returnItem itemId
        u).2.1.items itemId = some it2 ∧
      it2.isBorrowed = false ∧ it2.borrowedBy = "") ∧
    (((inv.borrowItem itemId u).2.returnItem itemId u).2.1.borrowItem
        itemId u2).1 = .ok () := by
  have hid := findItem?_id_eq hfind
  have hb1 := borrowItem_eq_of_free hfind hfree hu
  have hfind1 : findItem? (setFirstById inv.items itemId
      { it with isBorrowed := true, borrowedBy := u }) itemId =
      some { it with isBorrowed := true, borrowedBy := u } :=
    findItem?_setFirstById hfind _ (by simpa using hid)
  have hr := @returnItem_eq_of_owner
    ⟨setFirstById inv.items itemId
      { it with isBorrowed := true, borrowedBy := u }⟩ itemId
    { it with isBorrowed := true, borrowedBy := u } u hfind1 rfl rfl hu
  have hfind2 : findItem? (setFirstById (setFirstById inv.items itemId
      { it with isBorrowed := true, borrowedBy := u }) itemId
      { it with isBorrowed := false, borrowedBy := "" }) itemId =
      some { it with isBorrowed := false, borrowedBy := "" } :=
    findItem?_setFirstById hfind1 _ (by simpa using hid)
  have hb2 := @borrowItem_eq_of_free
    ⟨setFirstById (setFirstById inv.items itemId
      { it with isBorrowed := true, borrowedBy := u }) itemId
      { it with isBorrowed := false, borrowedBy := "" }⟩ itemId
    { it with isBorrowed := false, borrowedBy := "" } u2 hfind2 rfl hu2
  refine ⟨by simp [hb1], by simp [hb1, hr], ?_, ?_⟩
  · refine ⟨{ it with isBorrowed := false, borrowedBy := "" }, ?_, rfl, rfl⟩
    simpa [hb1, hr] using hfind2
  · simp [hb1, hr, hb2]

/-- Witness for C3: the round trip on the fresh catalog's item 1 with
users alice then bob. -/
theorem C3_witness :
    (InventoryManager.init.borrowItem 1 "alice").1 = .ok () ∧
    ((InventoryManager.init.borrowItem 1 "alice").2.returnItem 1
      "alice").1 = .ok () ∧
    (∃ it2, findItem? ((InventoryManager.init.borrowItem 1
        "alice").2.returnItem 1 "alice").2.1.items 1 = some it2 ∧
      it2.isBorrowed = false ∧ it2.borrowedBy = "") ∧
    (((InventoryManager.init.borrowItem 1 "alice").2.returnItem 1
        "alice").2.1.borrowItem 1 "bob").1 = .ok () :=
  @C3_borrow_return_roundtrip InventoryManager.init 1
    ⟨1, "Camera", false, ""⟩ "alice" "bob" rfl rfl (by decide) (by decide)

/-- C4: `waitUntilAvailable` on an item the calling user currently holds
throws the self-deadlock error; the outcome is `.err`, not `.blocks`, so
the thread never enters `cv.wait`. -/
theorem C4_wait_self_deadlock {inv : InventoryManager} {itemId : Int}
    {it : Item} {u : String} (hfind : findItem? inv.items itemId = some it)
    (hb : it.isBorrowed = true) (hby : it.borrowedBy = u) :
    inv.waitUntilAvailable itemId u =
      .err "Deadlock: user is waiting for their own item" := by
  unfold InventoryManager.waitUntilAvailable
  rw [hfind]
  simp [Item.isAvailable, hb, hby]

/-- Witness for C4: alice waits on item 2 which she holds herself. -/
theorem C4_witness :
    (InventoryManager.init.borrowItem 2 "alice").2.waitUntilAvailable 2
      "alice" = .err "Deadlock: user is waiting for their own item" :=
  @C4_wait_self_deadlock (InventoryManager.init.borrowItem 2 "alice").2 2
    ⟨2, "Tripod", true, "alice"⟩ "alice" rfl rfl rfl

/-- C9: the borrower name is non-empty exactly when the item is lent —
true of the seeded catalog, and preserved by `borrowItem` and
`returnItem` whether they succeed or fail.  (`listItems` and
`waitUntilAvailable` do not write any item field: they are read-only by
their types in this embedding, as in the source.) -/
theorem C9_borrower_iff_borrowed (inv : InventoryManager) (itemId : Int)
    (u : String) (h : inv.wf) :
    InventoryManager.init.wf ∧ (inv.borrowItem itemId u).2.wf ∧
      (inv.returnItem itemId u).2.1.wf := by
  refine ⟨by decide, ?_, ?_⟩
  · unfold InventoryManager.borrowItem
    cases hfind : findItem? inv.items itemId with
    | none => simpa using h
    | some it =>
      by_cases hb : it.isAvailable = true
      · cases hbw : it.borrow u with
        | error e2 => simpa [hfind, hb, hbw] using h
        | ok it2 =>
          have hbw2 : u ≠ "" ∧
              it2 = { it with isBorrowed := true, borrowedBy := u } := by
            unfold Item.borrow at hbw
            by_cases hu : u = ""
            · simp [hu] at hbw
            · by_cases hib : it.isBorrowed = true
              · simp [hu, hib] at hbw
              · have hib2 : it.isBorrowed = false := by simpa using hib
                rw [hib2] at hbw
                simp [hu] at hbw
                exact ⟨hu, hbw.symm⟩
          simp only [hfind, hb, hbw]
          intro y hy
          rcases mem_setFirstById hy with hmem | rfl
          · exact h y hmem
          · rw [hbw2.2]
            unfold Item.wf
            simp [hbw2.1]
      · have hb2 : it.isAvailable = false := by simpa using hb
        simpa [hfind, hb2] using h
  · unfold InventoryManager.returnItem
    cases hfind : findItem? inv.items itemId with
    | none => simpa using h
    | some it =>
      cases hrb : it.returnBack u with
      | error e2 => simpa [hfind, hrb] using h
      | ok it2 =>
        have hrb2 : it2 = { it with isBorrowed := false, borrowedBy := "" } := by
          unfold Item.returnBack at hrb
          by_cases hu : u = ""
          · simp [hu] at hrb
          · by_cases hib : it.isBorrowed = true
            · by_cases hbyu : it.borrowedBy = u
              · simp [hu, hib, hbyu] at hrb
                exact hrb.symm
              · simp [hu, hib, hbyu] at hrb
            · have hib2 : it.isBorrowed = false := by simpa using hib
              simp [hu, hib2] at hrb
        simp only [hfind, hrb]
        intro y hy
        rcases mem_setFirstById hy with hmem | rfl
        · exact h y hmem
        · rw [hrb2]
          unfold Item.wf
          simp

/-- Witness for C9: the invariant on the fresh store and across a
failing borrow and a failing return on an already-borrowed catalog. -/
theorem C9_witness :
    InventoryManager.init.wf ∧
    ((InventoryManager.init.borrowItem 1 "alice").2.borrowItem 1
      "bob").2.wf ∧
    ((InventoryManager.init.borrowItem 1 "alice").2.returnItem 1
      "bob").2.1.wf :=
  C9_borrower_iff_borrowed (InventoryManager.init.borrowItem 1 "alice").2
    1 "bob" (by decide)

/-- C10: every failing `borrowItem` or `returnItem` leaves every item of
the store exactly as before the call, and a failing `returnItem` never
runs the `cv.notify_all` broadcast.  (`waitUntilAvailable` and
`listItems` are read-only by their very types in this embedding,
mirroring that they never write an item field in the source.) -/
theorem C10_error_atomicity (inv : InventoryManager) (itemId : Int)
    (u : String) :
    (∀ e, (inv.borrowItem itemId u).1 = .error e →
      (inv.borrowItem itemId u).2 = inv) ∧
    (∀ e, (inv.returnItem itemId u).1 = .error e →
      (inv.returnItem itemId u).2.1 = inv ∧
        (inv.returnItem itemId u).2.2 = false) := by
  constructor
  · intro e he
    unfold InventoryManager.borrowItem at he ⊢
    cases hfind : findItem? inv.items itemId with
    | none => simp [hfind]
    | some it =>
      by_cases hb : it.isAvailable = true
      · cases hbw : it.borrow u with
        | error e2 => simp [hfind, hb, hbw]
        | ok it2 => simp [hfind, hb, hbw] at he
      · have hb2 : it.isAvailable = false := by simpa using hb
        simp [hfind, hb2]
  · intro e he
    unfold InventoryManager.returnItem at he ⊢
    cases hfind : findItem? inv.items itemId with
    | none => simp [hfind]
    | some it =>
      cases hrb : it.returnBack u with
      | error e2 => simp [hfind, hrb]
      | ok it2 => simp [hfind, hrb] at he

/-- Witness for C10: a borrow of the unknown id 99 and a return of the
free item 1 both fail and leave the fresh store untouched, with no
broadcast. -/
theorem C10_witness :
    (InventoryManager.init.borrowItem 99 "alice").2 =
      InventoryManager.init ∧
    (InventoryManager.init.returnItem 1 "alice").2.1 =
      InventoryManager.init ∧
    (InventoryManager.init.returnItem 1 "alice").2.2 = false :=
  ⟨(C10_error_atomicity InventoryManager.init 99 "alice").1
      "Item not found" rfl,
    ((C10_error_atomicity InventoryManager.init 1 "alice").2
      "this item is't borrowed!" rfl).1,
    ((C10_error_atomicity InventoryManager.init 1 "alice").2
      "this item is't borrowed!" rfl).2⟩

/-- C1 (code behavior at the failing input): with item 1 borrowed by
alice, an authenticated RETURN by bob yields `ERR SERVER username have
to be the same as the one who borrowed`, not `ERR PERMISSION not_owner`:
the owner-mismatch message thrown by `Item::returnBack` contains neither
`not borrows` nor `was not borrowed by`, so the `ERR PERMISSION
not_owner` branch at server.cpp:179-181 is unreachable. -/
theorem C1_return_by_non_owner_actual_response :
    (handleCommand "bob" true (InventoryManager.init.borrowItem 1
      "alice").2 "RETURN 1").responses =
      ["ERR SERVER username have to be the same as the one who borrowed"] ∧
    (handleCommand "bob" true (InventoryManager.init.borrowItem 1
      "alice").2 "RETURN 1").responses ≠ ["ERR PERMISSION not_owner"] :=
  ⟨rfl, by decide⟩

/-- C5 (code behavior at the failing input): the success responses are
built by `"OK BORROWED" + to_string(itemId)` and
`"OK RETURNED" + to_string(itemId)` (server.cpp:133,168) with no space
before the id, unlike every other `OK` response. -/
theorem C5_ok_responses_lack_space :
    (handleCommand "alice" true InventoryManager.init
      "BORROW 3").responses = ["OK BORROWED3"] ∧
    (handleCommand "alice" true (InventoryManager.init.borrowItem 3
      "alice").2 "RETURN 3").responses = ["OK RETURNED3"] ∧
    (handleCommand "alice" true InventoryManager.init
      "BORROW 3").responses ≠ ["OK BORROWED 3"] ∧
    (handleCommand "alice" true (InventoryManager.init.borrowItem 3
      "alice").2 "RETURN 3").responses ≠ ["OK RETURNED 3"] :=
  ⟨rfl, rfl, by decide, by decide⟩

/-- C6 (code behavior at the failing input): for the unknown id 99,
BORROW and RETURN send `" ERR NOT_FOUND item"` with a leading space
(server.cpp:139,175) and WAIT sends the misspelled `"ERR NOT_FOUNT
item"` (server.cpp:216); none equals `ERR NOT_FOUND item`. -/
theorem C6_not_found_responses :
    (handleCommand "alice" true InventoryManager.init
      "BORROW 99").responses = [" ERR NOT_FOUND item"] ∧
    (handleCommand "alice" true InventoryManager.init
      "RETURN 99").responses = [" ERR NOT_FOUND item"] ∧
    (handleCommand "alice" true InventoryManager.init
      "WAIT 99").responses = ["ERR NOT_FOUNT item"] ∧
    (handleCommand "alice" true InventoryManager.init
      "BORROW 99").responses ≠ ["ERR NOT_FOUND item"] ∧
    (handleCommand "alice" true InventoryManager.init
      "RETURN 99").responses ≠ ["ERR NOT_FOUND item"] ∧
    (handleCommand "alice" true InventoryManager.init
      "WAIT 99").responses ≠ ["ERR NOT_FOUND item"] :=
  ⟨rfl, rfl, rfl, by decide, by decide, by decide⟩

/-- Counterexample to C7 as stated: the token `1abc` is not a
well-formed decimal integer, yet `BORROW 1abc` is not rejected —
`stoi` parses the leading `1` and the store is called and mutated. -/
theorem C7_counterexample :
    (handleCommand "alice" true InventoryManager.init
      "BORROW 1abc").responses ≠ ["ERR PROTOCOL invalid_id"] ∧
    (handleCommand "alice" true InventoryManager.init
      "BORROW 1abc").inv ≠ InventoryManager.init ∧
    (handleCommand "alice" true InventoryManager.init
      "BORROW 1abc").responses = ["OK BORROWED1"] ∧
    findItem? (handleCommand "alice" true InventoryManager.init
      "BORROW 1abc").inv.items 1 = some ⟨1, "Camera", true, "alice"⟩ :=
  ⟨by decide, by decide, rfl, rfl⟩

/-- C7 as amended: a BORROW, RETURN, or WAIT whose id argument is
missing, or whose id token `stoi` rejects (no decimal digit after the
optional sign, or a value outside `int` range), produces exactly
`ERR PROTOCOL invalid_id` and does not call into the store; a token
with a parseable numeric prefix such as `1abc` is instead treated as
that number. -/
theorem C7_amended_invalid_id (u : String) (inv : InventoryManager)
    (line verb : String)
    (hverb : verb = "BORROW" ∨ verb = "RETURN" ∨ verb = "WAIT")
    (h : split line = [verb] ∨
      ∃ t e, split line = [verb, t] ∧ stoi t = .error e) :
    handleCommand u true inv line =
      ⟨["ERR PROTOCOL invalid_id"], u, true, inv, false, false, false⟩ := by
  rcases h with hsplit | ⟨t, e, hsplit, hstoi⟩
  · rcases hverb with hv | hv | hv <;> subst hv <;>
      simp [handleCommand, hsplit]
  · rcases hverb with hv | hv | hv <;> subst hv <;>
      simp [handleCommand, hsplit, hstoi]

/-- Witness for the amended C7: `BORROW x` on the fresh store. -/
theorem C7_witness :
    handleCommand "alice" true InventoryManager.init "BORROW x" =
      ⟨["ERR PROTOCOL invalid_id"], "alice", true, InventoryManager.init,
        false, false, false⟩ :=
  C7_amended_invalid_id "alice" InventoryManager.init "BORROW x" "BORROW"
    (Or.inl rfl) (Or.inr ⟨"x", "stoi: invalid argument", rfl, rfl⟩)

/-- Counterexample to C8 as stated: after `HELLO alice` then
`HELLO bob`, the subsequent `BORROW 1` runs as bob, not as the
first-HELLO username alice — server.cpp:93 reassigns `username` on
every HELLO. -/
theorem C8_counterexample :
    (runSession (SessState.start InventoryManager.init)
      ["HELLO alice", "HELLO bob", "BORROW 1"]).username = "bob" ∧
    findItem? (runSession (SessState.start InventoryManager.init)
      ["HELLO alice", "HELLO bob", "BORROW 1"]).inv.items 1 =
      some ⟨1, "Camera", true, "bob"⟩ ∧
    (⟨1, "Camera", true, "bob"⟩ : Item).borrowedBy ≠ "alice" :=
  ⟨rfl, rfl, by decide⟩

/-- C8 as amended: every HELLO with a non-empty username argument —
first or later — succeeds, overwrites the session username with that
argument, and authenticates the session; subsequent commands use the
most recently set username. -/
theorem C8_amended_hello_overwrites (u : String) (a : Bool)
    (inv : InventoryManager) (line w : String) (rest : List String)
    (hsplit : split line = "HELLO" :: w :: rest) (hw : w ≠ "") :
    handleCommand u a inv line =
      ⟨["OK HELLO"], w, true, inv, false, false, false⟩ := by
  simp [handleCommand, hsplit, hw]

/-- Witness for the amended C8: a second HELLO as bob after a session
already authenticated as alice. -/
theorem C8_witness :
    handleCommand "alice" true InventoryManager.init "HELLO bob" =
      ⟨["OK HELLO"], "bob", true, InventoryManager.init, false, false,
        false⟩ :=
  C8_amended_hello_overwrites "alice" true InventoryManager.init
    "HELLO bob" "bob" [] rfl (by decide)

end Lending
